import Mathlib

/-!
# Verification of giu's core subsystems (shallow embedding)

This file embeds the three subsystems of the giu immediate-mode UI layer
covered by the specification — the Style Stack Controller (`Style.go`),
the Alignment Engine (`Alignment.go`) and the stateful autocomplete text
input (`TextWidgets.go`) — as pure Lean functions, and proves or refutes
the specification's claims about them.

Conventions of the embedding:
* `float32` values are modelled as `ℚ` (exact arithmetic; the claims
  under study are about control flow, counts and order, not rounding of
  binary floats — where Go converts a float to `int`, the toward-zero
  truncation is modelled explicitly by `goTrunc`).
* Calls into the external imgui backend are recorded as a trace
  (`List BackendCall`) in the order the Go code issues them.
* Go maps are modelled as association lists; the claims proved below are
  insensitive to Go's unspecified map iteration order (they only count
  events or assert membership).
* External collaborators (the fuzzy-matching library, the font registry
  `extraFontMap`, the imgui cursor machinery) are parameters of the
  embedded functions.
-/

/-- `imgui.Vec2`, with `float32` components modelled as `ℚ`. -/
structure Vec2 where
  x : ℚ
  y : ℚ
  deriving DecidableEq, Repr

/-- `StyleColorID` (Style.go): an integer identifying a color slot.
The numeric constants (0..52) are irrelevant to every claim, so the type
is kept as the underlying integer. -/
abbrev StyleColorID := Nat

/-- A color value. `ToVec4Color` and `image/color.Color` are external to
the analysed files; colors are opaque payloads carried through the trace,
modelled as an abstract code. -/
abbrev GoColor := Nat

/-- `StyleVarID` (Style.go, const block at lines 277-326): one
constructor per named constant.  The numeric values come from the
external imgui-go package and are never inspected by the analysed code,
which only compares IDs for equality (map keys, `IsVec2` lookup). -/
inductive StyleVarID where
  | StyleVarAlpha
  | StyleVarDisabledAlpha
  | StyleVarWindowPadding
  | StyleVarWindowRounding
  | StyleVarWindowBorderSize
  | StyleVarWindowMinSize
  | StyleVarWindowTitleAlign
  | StyleVarChildRounding
  | StyleVarChildBorderSize
  | StyleVarPopupRounding
  | StyleVarPopupBorderSize
  | StyleVarFramePadding
  | StyleVarFrameRounding
  | StyleVarFrameBorderSize
  | StyleVarItemSpacing
  | StyleVarItemInnerSpacing
  | StyleVarIndentSpacing
  | StyleVarScrollbarSize
  | StyleVarScrollbarRounding
  | StyleVarGrabMinSize
  | StyleVarGrabRounding
  | StyleVarTabRounding
  | StyleVarButtonTextAlign
  | StyleVarSelectableTextAlign
  deriving DecidableEq, Repr

open StyleVarID

/-- `StyleVarID.IsVec2` (Style.go lines 330-347): the fixed
classification table.  The Go code builds a literal map with exactly
these eight keys mapped to `true` and returns `result && ok`, i.e.
`true` exactly for the listed keys. -/
def StyleVarID.IsVec2 (s : StyleVarID) : Bool :=
  match s with
  | StyleVarWindowPadding => true
  | StyleVarWindowMinSize => true
  | StyleVarWindowTitleAlign => true
  | StyleVarFramePadding => true
  | StyleVarItemSpacing => true
  | StyleVarItemInnerSpacing => true
  | StyleVarButtonTextAlign => true
  | StyleVarSelectableTextAlign => true
  | _ => false

/-- The value stored in `ss.styles` for one style-variable override.
The Go field is `map[StyleVarID]interface{}`, but the only writers are
`SetStyle` (stores an `imgui.Vec2`) and `SetStyleFloat` (stores a
`float32`), so the dynamic type is exactly this two-case sum. -/
inductive StyleValue where
  | vec2 (v : Vec2)
  | float (v : ℚ)
  deriving DecidableEq, Repr

/-- `FontInfo`: only its `String()` rendering is consulted by the
analysed code (as the key into the font registry `extraFontMap`), so the
model keeps that string. -/
structure FontInfo where
  str : String
  deriving DecidableEq, Repr

/-- The font registry `extraFontMap` (a process-wide Go map from a
font's `String()` key to a loaded imgui font handle), modelled as a
lookup function; font handles are opaque `Nat` codes. -/
abbrev FontMap := String → Option Nat

/-- One call into the imgui backend, as issued by the analysed code.
`buildLayout` marks the recursive build of the wrapped sub-layout
(whatever calls that build issues belong to the wrapped widgets, not to
the controller under verification). -/
inductive BackendCall where
  | pushStyleColor (id : StyleColorID) (c : GoColor)
  | pushStyleVarVec2 (id : StyleVarID) (v : Vec2)
  | pushStyleVarFloat (id : StyleVarID) (v : ℚ)
  | pushFont (handle : Nat)
  | beginDisabled (d : Bool)
  | buildLayout
  | endDisabled
  | popFont
  | popStyleColorV (n : Nat)
  | popStyleVarV (n : Nat)
  deriving DecidableEq, Repr

/-- `PushFont` (Style.go lines 12-23): returns whether a font was
actually pushed, together with the backend calls issued.  A `nil` font
or a key absent from `extraFontMap` pushes nothing and returns false. -/
def PushFont (fm : FontMap) (font : Option FontInfo) : Bool × List BackendCall :=
  match font with
  | none => (false, [])
  | some f =>
    match fm f.str with
    | some h => (true, [BackendCall.pushFont h])
    | none => (false, [])

/-- `StyleSetter` (Style.go lines 352-358).  The two Go maps are
association lists; `layout == nil` and the empty slice are modelled as
`none` and `some []` (the build treats them identically). -/
structure StyleSetter where
  colors : List (StyleColorID × GoColor)
  styles : List (StyleVarID × StyleValue)
  font : Option FontInfo
  disabled : Bool
  layout : Option (List Unit)
  deriving Repr

/-- The emptiness test of Style.go line 426:
`ss.layout == nil || len(ss.layout) == 0`. -/
def StyleSetter.layoutEmpty (ss : StyleSetter) : Bool :=
  match ss.layout with
  | none => true
  | some l => l.length == 0

/-- The push issued for one style-variable override (Style.go lines
434-456).  For a Vec2-classified slot a `float32` value is broadcast to
both axes; for a scalar slot a `Vec2` value contributes its `X`
component (the zero-default of the Go type switch is unreachable because
`StyleValue` is exactly the two stored cases). -/
def pushStyleVarCall (k : StyleVarID) (v : StyleValue) : BackendCall :=
  if k.IsVec2 then
    match v with
    | StyleValue.vec2 t => BackendCall.pushStyleVarVec2 k t
    | StyleValue.float t => BackendCall.pushStyleVarVec2 k ⟨t, t⟩
  else
    match v with
    | StyleValue.float t => BackendCall.pushStyleVarFloat k t
    | StyleValue.vec2 t => BackendCall.pushStyleVarFloat k t.x

/-- `StyleSetter.Build` (Style.go lines 425-475) as the trace of backend
calls it issues, in the order the Go code issues them. -/
def StyleSetter.Build (fm : FontMap) (ss : StyleSetter) : List BackendCall :=
  if ss.layoutEmpty then []
  else
    (ss.colors.map fun kv => BackendCall.pushStyleColor kv.1 kv.2)
    ++ (ss.styles.map fun kv => pushStyleVarCall kv.1 kv.2)
    ++ (PushFont fm ss.font).2
    ++ [BackendCall.beginDisabled ss.disabled]
    ++ [BackendCall.buildLayout]
    ++ [BackendCall.endDisabled]
    ++ (if (PushFont fm ss.font).1 then [BackendCall.popFont] else [])
    ++ [BackendCall.popStyleColorV ss.colors.length]
    ++ [BackendCall.popStyleVarV ss.styles.length]

example :
    (StyleSetter.Build (fun _ => none)
      { colors := [(0, 7)], styles := [(StyleVarAlpha, StyleValue.float 1)],
        font := none, disabled := false, layout := some [()] }) =
    [BackendCall.pushStyleColor 0 7,
     BackendCall.pushStyleVarFloat StyleVarAlpha 1,
     BackendCall.beginDisabled false,
     BackendCall.buildLayout,
     BackendCall.endDisabled,
     BackendCall.popStyleColorV 1,
     BackendCall.popStyleVarV 1] := by rfl

/-! ## Trace accounting helpers -/

/-- Number of color-stack pushes one backend call contributes. -/
def BackendCall.colorPushes : BackendCall → Nat
  | BackendCall.pushStyleColor _ _ => 1
  | _ => 0

/-- Number of color-stack pops one backend call contributes
(`PopStyleColorV n` pops `n` entries at once). -/
def BackendCall.colorPops : BackendCall → Nat
  | BackendCall.popStyleColorV n => n
  | _ => 0

/-- Number of style-variable-stack pushes one backend call contributes. -/
def BackendCall.varPushes : BackendCall → Nat
  | BackendCall.pushStyleVarVec2 _ _ => 1
  | BackendCall.pushStyleVarFloat _ _ => 1
  | _ => 0

/-- Number of style-variable-stack pops one backend call contributes
(`PopStyleVarV n` pops `n` entries at once). -/
def BackendCall.varPops : BackendCall → Nat
  | BackendCall.popStyleVarV n => n
  | _ => 0

/-- Number of font pushes one backend call contributes. -/
def BackendCall.fontPushes : BackendCall → Nat
  | BackendCall.pushFont _ => 1
  | _ => 0

/-- Number of font pops one backend call contributes. -/
def BackendCall.fontPops : BackendCall → Nat
  | BackendCall.popFont => 1
  | _ => 0

/-- Total of a per-call quantity over a trace. -/
def countCalls (f : BackendCall → Nat) : List BackendCall → Nat
  | [] => 0
  | c :: rest => f c + countCalls f rest

theorem countCalls_append (f : BackendCall → Nat) (a b : List BackendCall) :
    countCalls f (a ++ b) = countCalls f a + countCalls f b := by
  induction a with
  | nil => simp [countCalls]
  | cons c rest ih => simp [countCalls, ih]; ring

theorem countCalls_map_eq_length {α : Type} (f : BackendCall → Nat)
    (g : α → BackendCall) (l : List α) (h : ∀ x, f (g x) = 1) :
    countCalls f (l.map g) = l.length := by
  induction l with
  | nil => simp [countCalls]
  | cons x rest ih => simp [countCalls, h, ih]; ring

theorem countCalls_map_eq_zero {α : Type} (f : BackendCall → Nat)
    (g : α → BackendCall) (l : List α) (h : ∀ x, f (g x) = 0) :
    countCalls f (l.map g) = 0 := by
  induction l with
  | nil => simp [countCalls]
  | cons x rest ih => simp [countCalls, h, ih]

/-- `pushStyleVarCall` always produces a style-variable push. -/
theorem pushStyleVarCall_varPushes (k : StyleVarID) (v : StyleValue) :
    (pushStyleVarCall k v).varPushes = 1 := by
  cases v <;> simp [pushStyleVarCall] <;> split <;> rfl

theorem pushStyleVarCall_colorPushes (k : StyleVarID) (v : StyleValue) :
    (pushStyleVarCall k v).colorPushes = 0 := by
  cases v <;> simp [pushStyleVarCall] <;> split <;> rfl

/-- The font-push section contains exactly one push when `PushFont`
reported success and none otherwise, and nothing else. -/
theorem pushFont_calls (fm : FontMap) (f : Option FontInfo) :
    countCalls BackendCall.fontPushes (PushFont fm f).2 =
      (if (PushFont fm f).1 then 1 else 0) ∧
    countCalls BackendCall.colorPushes (PushFont fm f).2 = 0 ∧
    countCalls BackendCall.varPushes (PushFont fm f).2 = 0 ∧
    countCalls BackendCall.colorPops (PushFont fm f).2 = 0 ∧
    countCalls BackendCall.varPops (PushFont fm f).2 = 0 ∧
    countCalls BackendCall.fontPops (PushFont fm f).2 = 0 := by
  cases f with
  | none => simp [PushFont, countCalls]
  | some fi =>
    cases h : fm fi.str with
    | none => simp [PushFont, h, countCalls]
    | some handle => simp [PushFont, h, countCalls, BackendCall.fontPushes,
        BackendCall.colorPushes, BackendCall.varPushes, BackendCall.colorPops,
        BackendCall.varPops, BackendCall.fontPops]

theorem pushStyleVarCall_colorPops (k : StyleVarID) (v : StyleValue) :
    (pushStyleVarCall k v).colorPops = 0 := by
  cases v <;> simp [pushStyleVarCall] <;> split <;> rfl

theorem pushStyleVarCall_varPops (k : StyleVarID) (v : StyleValue) :
    (pushStyleVarCall k v).varPops = 0 := by
  cases v <;> simp [pushStyleVarCall] <;> split <;> rfl

theorem pushStyleVarCall_fontPushes (k : StyleVarID) (v : StyleValue) :
    (pushStyleVarCall k v).fontPushes = 0 := by
  cases v <;> simp [pushStyleVarCall] <;> split <;> rfl

theorem pushStyleVarCall_fontPops (k : StyleVarID) (v : StyleValue) :
    (pushStyleVarCall k v).fontPops = 0 := by
  cases v <;> simp [pushStyleVarCall] <;> split <;> rfl

/-- Per-category push/pop totals of a non-empty `StyleSetter.Build`. -/
theorem style_build_counts (fm : FontMap) (ss : StyleSetter)
    (h : ss.layoutEmpty = false) :
    countCalls BackendCall.colorPushes (ss.Build fm) = ss.colors.length ∧
    countCalls BackendCall.colorPops (ss.Build fm) = ss.colors.length ∧
    countCalls BackendCall.varPushes (ss.Build fm) = ss.styles.length ∧
    countCalls BackendCall.varPops (ss.Build fm) = ss.styles.length ∧
    countCalls BackendCall.fontPushes (ss.Build fm) =
      (if (PushFont fm ss.font).1 then 1 else 0) ∧
    countCalls BackendCall.fontPops (ss.Build fm) =
      (if (PushFont fm ss.font).1 then 1 else 0) := by
  obtain ⟨p1, p2, p3, p4, p5, p6⟩ := pushFont_calls fm ss.font
  have hc1 := countCalls_map_eq_length BackendCall.colorPushes
    (fun kv => BackendCall.pushStyleColor kv.1 kv.2) ss.colors (fun x => rfl)
  have hc2 := countCalls_map_eq_zero BackendCall.colorPops
    (fun kv => BackendCall.pushStyleColor kv.1 kv.2) ss.colors (fun x => rfl)
  have hc3 := countCalls_map_eq_zero BackendCall.varPushes
    (fun kv => BackendCall.pushStyleColor kv.1 kv.2) ss.colors (fun x => rfl)
  have hc4 := countCalls_map_eq_zero BackendCall.varPops
    (fun kv => BackendCall.pushStyleColor kv.1 kv.2) ss.colors (fun x => rfl)
  have hc5 := countCalls_map_eq_zero BackendCall.fontPushes
    (fun kv => BackendCall.pushStyleColor kv.1 kv.2) ss.colors (fun x => rfl)
  have hc6 := countCalls_map_eq_zero BackendCall.fontPops
    (fun kv => BackendCall.pushStyleColor kv.1 kv.2) ss.colors (fun x => rfl)
  have hs1 := countCalls_map_eq_length BackendCall.varPushes
    (fun kv => pushStyleVarCall kv.1 kv.2) ss.styles
    (fun x => pushStyleVarCall_varPushes x.1 x.2)
  have hs2 := countCalls_map_eq_zero BackendCall.colorPushes
    (fun kv => pushStyleVarCall kv.1 kv.2) ss.styles
    (fun x => pushStyleVarCall_colorPushes x.1 x.2)
  have hs3 := countCalls_map_eq_zero BackendCall.colorPops
    (fun kv => pushStyleVarCall kv.1 kv.2) ss.styles
    (fun x => pushStyleVarCall_colorPops x.1 x.2)
  have hs4 := countCalls_map_eq_zero BackendCall.varPops
    (fun kv => pushStyleVarCall kv.1 kv.2) ss.styles
    (fun x => pushStyleVarCall_varPops x.1 x.2)
  have hs5 := countCalls_map_eq_zero BackendCall.fontPushes
    (fun kv => pushStyleVarCall kv.1 kv.2) ss.styles
    (fun x => pushStyleVarCall_fontPushes x.1 x.2)
  have hs6 := countCalls_map_eq_zero BackendCall.fontPops
    (fun kv => pushStyleVarCall kv.1 kv.2) ss.styles
    (fun x => pushStyleVarCall_fontPops x.1 x.2)
  refine ⟨?_, ?_, ?_, ?_, ?_, ?_⟩ <;>
    cases hf : (PushFont fm ss.font).1 <;>
      simp [StyleSetter.Build, h, hf, countCalls_append, countCalls,
        hc1, hc2, hc3, hc4, hc5, hc6, hs1, hs2, hs3, hs4, hs5, hs6,
        p1, p2, p3, p4, p5, p6,
        BackendCall.colorPushes, BackendCall.colorPops, BackendCall.varPushes,
        BackendCall.varPops, BackendCall.fontPushes, BackendCall.fontPops] at *

/-- Claim C3: for every Style Stack Controller build with a non-empty
sub-layout, C configured color overrides and V configured style-variable
overrides, the backend receives exactly C color pushes and C color pops,
exactly V style-variable pushes and V style-variable pops, and exactly
one font pop if and only if a font push succeeded. -/
theorem C3_style_build_balanced (fm : FontMap) (ss : StyleSetter)
    (h : ss.layoutEmpty = false) :
    countCalls BackendCall.colorPushes (ss.Build fm) = ss.colors.length ∧
    countCalls BackendCall.colorPops (ss.Build fm) = ss.colors.length ∧
    countCalls BackendCall.varPushes (ss.Build fm) = ss.styles.length ∧
    countCalls BackendCall.varPops (ss.Build fm) = ss.styles.length ∧
    countCalls BackendCall.fontPushes (ss.Build fm) =
      (if (PushFont fm ss.font).1 then 1 else 0) ∧
    (countCalls BackendCall.fontPops (ss.Build fm) = 1 ↔
      (PushFont fm ss.font).1 = true) := by
  obtain ⟨a, b, c, d, e, f⟩ := style_build_counts fm ss h
  refine ⟨a, b, c, d, e, ?_⟩
  rw [f]
  cases hf : (PushFont fm ss.font).1 <;> simp

/-- A concrete styled setter used by witnesses: two colors, two
style-variables, a resolvable font, non-empty layout. -/
def exampleSS : StyleSetter :=
  { colors := [(0, 10), (21, 11)],
    styles := [(StyleVarAlpha, StyleValue.float 1),
               (StyleVarWindowPadding, StyleValue.vec2 ⟨4, 4⟩)],
    font := some ⟨"sans:12"⟩,
    disabled := false,
    layout := some [()] }

/-- A font registry resolving the witness font. -/
def exampleFm : FontMap := fun s => if s = "sans:12" then some 3 else none

theorem C3_style_build_balanced_witness :
    exampleSS.layoutEmpty = false ∧
    (countCalls BackendCall.colorPushes (exampleSS.Build exampleFm) = 2 ∧
     countCalls BackendCall.colorPops (exampleSS.Build exampleFm) = 2 ∧
     countCalls BackendCall.varPushes (exampleSS.Build exampleFm) = 2 ∧
     countCalls BackendCall.varPops (exampleSS.Build exampleFm) = 2 ∧
     countCalls BackendCall.fontPushes (exampleSS.Build exampleFm) =
       (if (PushFont exampleFm exampleSS.font).1 then 1 else 0) ∧
     (countCalls BackendCall.fontPops (exampleSS.Build exampleFm) = 1 ↔
       (PushFont exampleFm exampleSS.font).1 = true)) :=
  ⟨rfl, C3_style_build_balanced exampleFm exampleSS rfl⟩

/-- Claim C5: building a Style Stack Controller whose target sub-layout
is empty (nil or of length zero) performs no backend calls at all,
regardless of the configured overrides. -/
theorem C5_empty_layout_no_calls (fm : FontMap) (ss : StyleSetter)
    (h : ss.layoutEmpty = true) :
    ss.Build fm = [] := by
  simp [StyleSetter.Build, h]

/-- A heavily configured setter whose layout is nil. -/
def exampleNilLayoutSS : StyleSetter :=
  { colors := [(0, 10), (2, 11), (7, 12)],
    styles := [(StyleVarAlpha, StyleValue.float 1),
               (StyleVarFramePadding, StyleValue.vec2 ⟨2, 2⟩)],
    font := some ⟨"sans:12"⟩,
    disabled := true,
    layout := none }

theorem C5_empty_layout_no_calls_witness :
    exampleNilLayoutSS.layoutEmpty = true ∧
    exampleNilLayoutSS.Build exampleFm = [] :=
  ⟨rfl, C5_empty_layout_no_calls exampleFm exampleNilLayoutSS rfl⟩

/-! ## Claim C1: relative order of the two category pops -/

/-- Whether a backend call is the color-stack pop. -/
def BackendCall.isColorPop : BackendCall → Bool
  | BackendCall.popStyleColorV _ => true
  | _ => false

/-- Whether a backend call is the style-variable-stack pop. -/
def BackendCall.isVarPop : BackendCall → Bool
  | BackendCall.popStyleVarV _ => true
  | _ => false

/-- "The pop of style-variables precedes the pop of colors": the first
style-variable pop occurs at a strictly earlier position in the trace
than the first color pop. -/
def varPopPrecedesColorPop (t : List BackendCall) : Prop :=
  t.findIdx BackendCall.isVarPop < t.findIdx BackendCall.isColorPop

instance (t : List BackendCall) : Decidable (varPopPrecedesColorPop t) := by
  unfold varPopPrecedesColorPop; infer_instance

/-- Claim C1 counterexample: a build with one color override and one
style-variable override in which the color pop comes strictly before the
style-variable pop (Style.go lines 473-474 pop colors first), refuting
the claim that the style-variable pop precedes the color pop. -/
theorem C1_counterexample :
    ¬ varPopPrecedesColorPop
      (StyleSetter.Build (fun _ => none)
        { colors := [(0, 7)],
          styles := [(StyleVarAlpha, StyleValue.float 1)],
          font := none, disabled := false, layout := some [()] }) := by
  decide

/-- Claim C1 (amended): after the wrapped sub-layout is built, the color
overrides are popped (by the count pushed) before the style-variable
overrides are popped (by the count pushed): every non-empty build ends
with the color pop followed by the style-variable pop, and no other call
in the trace pops either stack. -/
theorem C1_amended_color_pop_first (fm : FontMap) (ss : StyleSetter)
    (h : ss.layoutEmpty = false) :
    ∃ p, ss.Build fm =
        p ++ [BackendCall.popStyleColorV ss.colors.length,
              BackendCall.popStyleVarV ss.styles.length] ∧
      ∀ c ∈ p, c.isColorPop = false ∧ c.isVarPop = false := by
  refine ⟨(ss.colors.map fun kv => BackendCall.pushStyleColor kv.1 kv.2)
    ++ (ss.styles.map fun kv => pushStyleVarCall kv.1 kv.2)
    ++ (PushFont fm ss.font).2
    ++ [BackendCall.beginDisabled ss.disabled]
    ++ [BackendCall.buildLayout]
    ++ [BackendCall.endDisabled]
    ++ (if (PushFont fm ss.font).1 then [BackendCall.popFont] else []), ?_, ?_⟩
  · simp [StyleSetter.Build, h]
  · intro c hc
    simp only [List.mem_append, List.mem_map, List.mem_singleton] at hc
    rcases hc with ((((((⟨kv, _, rfl⟩ | ⟨kv, _, rfl⟩) | hf) | rfl) | rfl) | rfl) | hif)
    · exact ⟨rfl, rfl⟩
    · constructor
      · cases kv.2 <;> simp [pushStyleVarCall] <;> split <;> rfl
      · cases kv.2 <;> simp [pushStyleVarCall] <;> split <;> rfl
    · cases hfont : ss.font with
      | none => rw [hfont] at hf; simp [PushFont] at hf
      | some fi =>
        rw [hfont] at hf
        cases hr : fm fi.str with
        | none => simp [PushFont, hr] at hf
        | some handle =>
          simp [PushFont, hr] at hf
          subst hf; exact ⟨rfl, rfl⟩
    · exact ⟨rfl, rfl⟩
    · exact ⟨rfl, rfl⟩
    · exact ⟨rfl, rfl⟩
    · rcases hp : (PushFont fm ss.font).1 with _ | _ <;> rw [hp] at hif <;>
        simp at hif
      subst hif; exact ⟨rfl, rfl⟩

theorem C1_amended_color_pop_first_witness :
    exampleSS.layoutEmpty = false ∧
    (∃ p, exampleSS.Build exampleFm =
        p ++ [BackendCall.popStyleColorV exampleSS.colors.length,
              BackendCall.popStyleVarV exampleSS.styles.length] ∧
      ∀ c ∈ p, c.isColorPop = false ∧ c.isVarPop = false) :=
  ⟨rfl, C1_amended_color_pop_first exampleFm exampleSS rfl⟩

/-! ## Claims C6, C7, C10: style-variable classification and fonts -/

/-- Every configured style-variable override contributes its push to a
non-empty build's trace. -/
theorem mem_build_of_mem_styles (fm : FontMap) (ss : StyleSetter)
    (h : ss.layoutEmpty = false) (kv : StyleVarID × StyleValue)
    (hmem : kv ∈ ss.styles) :
    pushStyleVarCall kv.1 kv.2 ∈ ss.Build fm := by
  have h1 : pushStyleVarCall kv.1 kv.2 ∈
      ss.styles.map fun kv => pushStyleVarCall kv.1 kv.2 :=
    List.mem_map_of_mem _ hmem
  simp only [StyleSetter.Build, h, Bool.false_eq_true, if_false, List.mem_append]
  tauto

/-- The sub-layout build marker is in every non-empty build's trace. -/
theorem buildLayout_mem_build (fm : FontMap) (ss : StyleSetter)
    (h : ss.layoutEmpty = false) :
    BackendCall.buildLayout ∈ ss.Build fm := by
  simp only [StyleSetter.Build, h, Bool.false_eq_true, if_false, List.mem_append]
  simp

/-- Claim C6: each style-variable slot is classified as 2-D vector or
scalar by the fixed table `IsVec2` (true exactly for the eight listed
slots), and a scalar value supplied for a vector-classified slot is
pushed as a 2-D vector with both axes equal to the scalar. -/
theorem C6_scalar_broadcast_to_vec2 :
    (∀ k : StyleVarID, k.IsVec2 = true ↔
      (k = StyleVarWindowPadding ∨ k = StyleVarWindowMinSize ∨
       k = StyleVarWindowTitleAlign ∨ k = StyleVarFramePadding ∨
       k = StyleVarItemSpacing ∨ k = StyleVarItemInnerSpacing ∨
       k = StyleVarButtonTextAlign ∨ k = StyleVarSelectableTextAlign)) ∧
    (∀ (fm : FontMap) (ss : StyleSetter) (k : StyleVarID) (s : ℚ),
      ss.layoutEmpty = false →
      (k, StyleValue.float s) ∈ ss.styles →
      k.IsVec2 = true →
      BackendCall.pushStyleVarVec2 k ⟨s, s⟩ ∈ ss.Build fm) := by
  constructor
  · intro k; cases k <;> simp [StyleVarID.IsVec2]
  · intro fm ss k s h hmem hk
    have := mem_build_of_mem_styles fm ss h (k, StyleValue.float s) hmem
    simpa [pushStyleVarCall, hk] using this

/-- A setter with a scalar override on the vector slot WindowPadding and
a Vec2 override on the scalar slot Alpha, used by witnesses. -/
def exampleBroadcastSS : StyleSetter :=
  { colors := [],
    styles := [(StyleVarWindowPadding, StyleValue.float 6),
               (StyleVarAlpha, StyleValue.vec2 ⟨(1 : ℚ)/2, 1⟩)],
    font := none,
    disabled := false,
    layout := some [(), ()] }

theorem C6_scalar_broadcast_to_vec2_witness :
    StyleVarID.IsVec2 StyleVarWindowPadding = true ∧
    exampleBroadcastSS.layoutEmpty = false ∧
    (StyleVarWindowPadding, StyleValue.float 6) ∈ exampleBroadcastSS.styles ∧
    BackendCall.pushStyleVarVec2 StyleVarWindowPadding ⟨6, 6⟩ ∈
      exampleBroadcastSS.Build (fun _ => none) :=
  ⟨rfl, rfl, by simp [exampleBroadcastSS],
   C6_scalar_broadcast_to_vec2.2 (fun _ => none) exampleBroadcastSS
     StyleVarWindowPadding 6 rfl (by simp [exampleBroadcastSS]) rfl⟩

/-- Claim C10: a 2-D vector value supplied for a slot classified as
scalar is pushed as a scalar equal to the vector's X component (the Y
component is discarded). -/
theorem C10_vec2_for_scalar_slot (fm : FontMap) (ss : StyleSetter)
    (k : StyleVarID) (t : Vec2) (h : ss.layoutEmpty = false)
    (hmem : (k, StyleValue.vec2 t) ∈ ss.styles) (hk : k.IsVec2 = false) :
    BackendCall.pushStyleVarFloat k t.x ∈ ss.Build fm := by
  have := mem_build_of_mem_styles fm ss h (k, StyleValue.vec2 t) hmem
  simpa [pushStyleVarCall, hk] using this

theorem C10_vec2_for_scalar_slot_witness :
    exampleBroadcastSS.layoutEmpty = false ∧
    (StyleVarAlpha, StyleValue.vec2 ⟨(1 : ℚ)/2, 1⟩) ∈ exampleBroadcastSS.styles ∧
    StyleVarID.IsVec2 StyleVarAlpha = false ∧
    BackendCall.pushStyleVarFloat StyleVarAlpha ((1 : ℚ)/2) ∈
      exampleBroadcastSS.Build (fun _ => none) :=
  ⟨rfl, by simp [exampleBroadcastSS], rfl,
   C10_vec2_for_scalar_slot (fun _ => none) exampleBroadcastSS
     StyleVarAlpha ⟨(1 : ℚ)/2, 1⟩ rfl (by simp [exampleBroadcastSS]) rfl⟩

/-- `PushFont` fails exactly on a nil font or an unregistered key. -/
theorem pushFont_fails_iff (fm : FontMap) (font : Option FontInfo) :
    (PushFont fm font).1 = false ↔
      (font = none ∨ ∃ f, font = some f ∧ fm f.str = none) := by
  cases font with
  | none => simp [PushFont]
  | some fi =>
    cases hr : fm fi.str with
    | none => simp [PushFont, hr]
    | some handle => simp [PushFont, hr]

/-- Claim C7: if the configured font is nil or its name does not resolve
in the font registry, no font push occurs, no font pop occurs later, and
the sub-layout is still built; in general a font pop occurs if and only
if the font push succeeded. -/
theorem C7_font_resolution (fm : FontMap) (ss : StyleSetter)
    (h : ss.layoutEmpty = false) :
    ((ss.font = none ∨ ∃ f, ss.font = some f ∧ fm f.str = none) →
      countCalls BackendCall.fontPushes (ss.Build fm) = 0 ∧
      countCalls BackendCall.fontPops (ss.Build fm) = 0 ∧
      BackendCall.buildLayout ∈ ss.Build fm) ∧
    (countCalls BackendCall.fontPops (ss.Build fm) = 1 ↔
      (PushFont fm ss.font).1 = true) := by
  obtain ⟨-, -, -, -, e, f⟩ := style_build_counts fm ss h
  constructor
  · intro hun
    have hfail : (PushFont fm ss.font).1 = false :=
      (pushFont_fails_iff fm ss.font).2 hun
    refine ⟨?_, ?_, buildLayout_mem_build fm ss h⟩
    · rw [e, hfail]; simp
    · rw [f, hfail]; simp
  · rw [f]
    cases hf : (PushFont fm ss.font).1 <;> simp

/-- A setter with an unresolvable font name, used by the C7 witness. -/
def exampleBadFontSS : StyleSetter :=
  { colors := [], styles := [], font := some ⟨"missing:10"⟩,
    disabled := false, layout := some [()] }

theorem C7_font_resolution_witness :
    exampleBadFontSS.layoutEmpty = false ∧
    (exampleBadFontSS.font = none ∨
      ∃ f, exampleBadFontSS.font = some f ∧ exampleFm f.str = none) ∧
    countCalls BackendCall.fontPushes (exampleBadFontSS.Build exampleFm) = 0 ∧
    countCalls BackendCall.fontPops (exampleBadFontSS.Build exampleFm) = 0 ∧
    BackendCall.buildLayout ∈ exampleBadFontSS.Build exampleFm := by
  have hb : exampleBadFontSS.font = none ∨
      ∃ f, exampleBadFontSS.font = some f ∧ exampleFm f.str = none := by
    right; exact ⟨⟨"missing:10"⟩, rfl, by simp [exampleFm]⟩
  obtain ⟨h1, h2, h3⟩ := (C7_font_resolution exampleFm exampleBadFontSS rfl).1 hb
  exact ⟨rfl, hb, h1, h2, h3⟩

/-! ## Alignment Engine (Alignment.go) -/

/-- Go's conversion of a float to `int` (as in `int(availableW-w)`)
discards the fraction, truncating toward zero. -/
def goTrunc (q : ℚ) : ℤ := if 0 ≤ q then ⌊q⌋ else ⌈q⌉

theorem goTrunc_near (q : ℚ) : |((goTrunc q : ℤ) : ℚ) - q| < 1 := by
  unfold goTrunc
  split
  · rw [abs_lt]
    constructor
    · have h1 := Int.sub_one_lt_floor q
      linarith
    · have h2 := Int.floor_le q
      linarith
  · rw [abs_lt]
    constructor
    · have h1 := Int.le_ceil q
      linarith
    · have h2 := Int.ceil_lt_add_one q
      linarith

/-- `AlignmentType` (Alignment.go lines 10-16). -/
inductive AlignmentType where
  | AlignLeft
  | AlignCenter
  | AlignRight
  deriving DecidableEq, Repr

/-- The backend state the Alignment Engine reads and writes: the cursor
(an `image.Point`, integer coordinates), the available region width, the
horizontal window padding and the horizontal item spacing (all
`float32`, modelled as `ℚ`). -/
structure AlignCtx where
  cursorX : ℤ
  cursorY : ℤ
  regionW : ℚ
  paddingX : ℚ
  spacingX : ℚ

/-- The widget kinds distinguished by the bypass switch of
`AlignmentSetter.Build` (Alignment.go lines 61-70): nested alignment
setters and the selectable/combo widgets are built directly, everything
else (`plain`) is measured and aligned. -/
inductive WidgetKind where
  | alignmentSetter
  | selectable
  | combo
  | comboCustom
  | plain
  deriving DecidableEq, Repr

/-- Whether `AlignmentSetter.Build` bypasses alignment for this kind. -/
def bypassed : WidgetKind → Bool
  | WidgetKind.plain => false
  | _ => true

/-- A widget as the Alignment Engine sees it: its kind, its real build
effect on the backend state, and the cursor X the backend reports after
the dry-run build followed by `imgui.SameLine()` (an external backend
answer; `GetWidgetWidth` derives the width from it).  The dry run's only
modelled effect is this answer — the code restores the cursor with
`SetCursorPos(currentPos)` afterwards (Alignment.go line 134). -/
structure AWidget where
  kind : WidgetKind
  afterSameLineX : ℤ
  realBuild : AlignCtx → AlignCtx

/-- `GetWidgetWidth` (Alignment.go lines 119-137): the measured width is
the cursor's horizontal displacement after the dry build + `SameLine`,
minus the item spacing; the cursor is restored to its saved position. -/
def GetWidgetWidth (ctx : AlignCtx) (afterSameLineX : ℤ) : ℚ :=
  ((afterSameLineX - ctx.cursorX : ℤ) : ℚ) - ctx.spacingX

/-- The cursor position set by the alignment switch of
`AlignmentSetter.Build` (Alignment.go lines 81-90) just before the
widget's real build. -/
def alignmentCursor (a : AlignmentType) (ctx : AlignCtx)
    (afterSameLineX : ℤ) : ℤ × ℤ :=
  let currentPos := (ctx.cursorX, ctx.cursorY)
  let w := GetWidgetWidth ctx afterSameLineX
  let availableW := ctx.regionW + 2 * ctx.paddingX
  match a with
  | AlignmentType.AlignLeft => currentPos
  | AlignmentType.AlignCenter =>
      (goTrunc (availableW / 2 - w / 2), currentPos.2)
  | AlignmentType.AlignRight =>
      (goTrunc (availableW - w), currentPos.2)

/-- The body of `a.layout.Range` in `AlignmentSetter.Build` (Alignment.go
lines 55-94) for one entry: nil entries are skipped, bypassed kinds are
built directly, other widgets are measured, the cursor is moved by the
alignment switch, and the widget is built for real there. -/
def alignBuildItem (a : AlignmentType) (item : Option AWidget)
    (ctx : AlignCtx) : AlignCtx :=
  match item with
  | none => ctx
  | some w =>
    if bypassed w.kind then w.realBuild ctx
    else
      let target := alignmentCursor a ctx w.afterSameLineX
      w.realBuild { ctx with cursorX := target.1, cursorY := target.2 }

/-- Claim C4: for every non-bypassed widget aligned by the Alignment
Engine, with measured width W, original cursor x = X0 and available
width A = region width + 2 × horizontal window padding, the cursor
passed to the widget's real build has x = X0 for Left, x = A/2 − W/2
(up to the fraction discarded by the float-to-int cursor conversion,
strictly less than one unit) for Center, and x = A − W (same tolerance)
for Right; the y coordinate is preserved in all three cases. -/
theorem C4_alignment_positions (ctx : AlignCtx) (w : AWidget)
    (h : bypassed w.kind = false) :
    (∀ a, alignBuildItem a (some w) ctx =
      w.realBuild { ctx with
        cursorX := (alignmentCursor a ctx w.afterSameLineX).1,
        cursorY := (alignmentCursor a ctx w.afterSameLineX).2 }) ∧
    (alignmentCursor AlignmentType.AlignLeft ctx w.afterSameLineX =
      (ctx.cursorX, ctx.cursorY)) ∧
    (|(((alignmentCursor AlignmentType.AlignCenter ctx w.afterSameLineX).1 : ℤ) : ℚ) -
        ((ctx.regionW + 2 * ctx.paddingX) / 2 -
         GetWidgetWidth ctx w.afterSameLineX / 2)| < 1 ∧
      (alignmentCursor AlignmentType.AlignCenter ctx w.afterSameLineX).2 =
        ctx.cursorY) ∧
    (|(((alignmentCursor AlignmentType.AlignRight ctx w.afterSameLineX).1 : ℤ) : ℚ) -
        ((ctx.regionW + 2 * ctx.paddingX) -
         GetWidgetWidth ctx w.afterSameLineX)| < 1 ∧
      (alignmentCursor AlignmentType.AlignRight ctx w.afterSameLineX).2 =
        ctx.cursorY) := by
  refine ⟨?_, rfl, ⟨?_, rfl⟩, ⟨?_, rfl⟩⟩
  · intro a
    simp [alignBuildItem, h]
  · exact goTrunc_near _
  · exact goTrunc_near _

/-- A concrete measured widget and backend state for the C4 witness:
cursor at (10, 5), region width 100, padding 2, spacing 4, dry-run
cursor answer 30 (so W = 16, A = 104). -/
def exampleAWidget : AWidget :=
  { kind := WidgetKind.plain, afterSameLineX := 30, realBuild := id }

/-- The backend state for the C4 witness. -/
def exampleAlignCtx : AlignCtx :=
  { cursorX := 10, cursorY := 5, regionW := 100, paddingX := 2, spacingX := 4 }

theorem C4_alignment_positions_witness :
    bypassed exampleAWidget.kind = false ∧
    (alignmentCursor AlignmentType.AlignLeft exampleAlignCtx
        exampleAWidget.afterSameLineX =
      (exampleAlignCtx.cursorX, exampleAlignCtx.cursorY)) ∧
    |(((alignmentCursor AlignmentType.AlignCenter exampleAlignCtx
          exampleAWidget.afterSameLineX).1 : ℤ) : ℚ) -
        ((exampleAlignCtx.regionW + 2 * exampleAlignCtx.paddingX) / 2 -
         GetWidgetWidth exampleAlignCtx exampleAWidget.afterSameLineX / 2)| < 1 ∧
    |(((alignmentCursor AlignmentType.AlignRight exampleAlignCtx
          exampleAWidget.afterSameLineX).1 : ℤ) : ℚ) -
        ((exampleAlignCtx.regionW + 2 * exampleAlignCtx.paddingX) -
         GetWidgetWidth exampleAlignCtx exampleAWidget.afterSameLineX)| < 1 := by
  obtain ⟨-, h2, ⟨h3, -⟩, ⟨h4, -⟩⟩ :=
    C4_alignment_positions exampleAlignCtx exampleAWidget rfl
  exact ⟨rfl, h2, h3, h4⟩

/-! ## Stateful autocomplete text input (TextWidgets.go) -/

/-- One fuzzy match as the analysed code consumes it: only the matched
candidate string `Str` is read (TextWidgets.go lines 243 and 253); the
match's score only orders the list, which the external library returns
sorted by descending score. -/
structure FuzzyMatch where
  Str : String
  deriving DecidableEq, Repr

/-- `inputTextState` (TextWidgets.go lines 141-143): the widget's
per-identifier persisted state, a list of fuzzy matches (Go `nil` and
the empty list coincide). -/
structure inputTextState where
  autoCompleteCandidates : List FuzzyMatch
  deriving DecidableEq, Repr

/-- A value held by the process-wide State Store.  Modelled from the
spec: the store (`Context.GetState`/`SetState`, defined in the
repository's context file, which is not among the analysed sources) maps
an identifier to an arbitrary typed state and `get` returns absent for
an unknown identifier; `otherKind` stands for a state stored by a
different widget kind, the wrong-concrete-type case of the Go type
assertion. -/
inductive StoredState where
  | inputText (s : inputTextState)
  | otherKind (tag : Nat)
  deriving DecidableEq, Repr

/-- The State Store, keyed by identifier strings. -/
abbrev StateStore := List (String × StoredState)

/-- Modelled from the spec: State Store `get(id) -> state-or-absent`. -/
def getState (store : StateStore) (id : String) : Option StoredState :=
  (store.find? fun e => e.1 == id).map fun e => e.2

/-- Modelled from the spec: State Store `set(id, state)` — replace the
entry for `id` or insert a new one. -/
def setState (store : StateStore) (id : String) (s : StoredState) :
    StateStore :=
  match store with
  | [] => [(id, s)]
  | e :: rest => if e.1 == id then (id, s) :: rest else e :: setState rest id s

/-- `InputTextWidget` (TextWidgets.go lines 130-139), restricted to the
fields the autocomplete logic reads: the identifier label, the current
value (the dereferenced `*string`) and the candidate list. -/
structure InputTextWidget where
  label : String
  value : String
  candidates : List String

/-- The state-recovery step of `InputTextWidget.Build` (TextWidgets.go
lines 204-213): an absent entry creates a fresh empty state and stores
it; a present entry that is not an `inputTextState` fails the `Assert`
(a fatal fault, modelled as `none`). -/
def inputTextRecoverState (store : StateStore) (label : String) :
    Option (inputTextState × StateStore) :=
  match getState store label with
  | none =>
    let state : inputTextState := { autoCompleteCandidates := [] }
    some (state, setState store label (StoredState.inputText state))
  | some (StoredState.inputText s) => some (s, store)
  | some (StoredState.otherKind _) => none

/-- The on-change fuzzy-matching step (TextWidgets.go lines 226-237):
on a change with a non-empty candidate list, a non-empty match list is
truncated to at most 5 (`int(math.Min(5, matches.Len()))`) and stored;
in every other case the state is left exactly as it was. -/
def inputTextChangeStep (fuzzyFind : String → List String → List FuzzyMatch)
    (value : String) (candidates : List String) (isChanged : Bool)
    (state : inputTextState) : inputTextState :=
  if isChanged then
    if candidates.length > 0 then
      let ms := fuzzyFind value candidates
      if ms.length > 0 then
        let size := min 5 ms.length
        { autoCompleteCandidates := ms.take size }
      else state
    else state
  else state

/-- The overlay/confirmation step (TextWidgets.go lines 240-256): when
the stored matches are non-empty the overlay is drawn, and the Enter key
replaces the value with the first stored match and clears the stored
matches; with no stored matches nothing is drawn and nothing changes.
Returns (new state, new value, overlay drawn). -/
def inputTextOverlayStep (enterPressed : Bool) (value : String)
    (state : inputTextState) : inputTextState × String × Bool :=
  match state.autoCompleteCandidates with
  | [] => (state, value, false)
  | m :: _ =>
    if enterPressed then ({ autoCompleteCandidates := [] }, m.Str, true)
    else (state, value, true)

/-- `InputTextWidget.Build` (TextWidgets.go lines 203-257), the three
steps composed; the final state is visible through the store because the
Go store holds a pointer to the mutated state (and `SetState` stored the
fresh one in the absent case).  `isChanged` (the backend's report that
the text changed this frame) and `enterPressed` (`IsKeyPressed(KeyEnter)`)
are external inputs; `none` is the fatal assertion failure. -/
def InputTextWidget.Build
    (fuzzyFind : String → List String → List FuzzyMatch)
    (isChanged enterPressed : Bool) (store : StateStore)
    (w : InputTextWidget) : Option (StateStore × String × Bool) :=
  match inputTextRecoverState store w.label with
  | none => none
  | some (state0, store1) =>
    let state1 := inputTextChangeStep fuzzyFind w.value w.candidates isChanged state0
    let out := inputTextOverlayStep enterPressed w.value state1
    some (setState store1 w.label (StoredState.inputText out.1), out.2.1, out.2.2)

example :
    InputTextWidget.Build (fun _ _ => [⟨"abc"⟩, ⟨"abd"⟩]) true true []
      { label := "t", value := "ab", candidates := ["abc", "xyz", "abd"] } =
    some ([("t", StoredState.inputText ⟨[]⟩)], "abc", true) := by rfl

/-- The matches stored before the C2 counterexample's change event. -/
def exampleOldState : inputTextState := ⟨[⟨"old"⟩]⟩

/-- A store already holding matches for identifier "t". -/
def exampleC2Store : StateStore := [("t", StoredState.inputText exampleOldState)]

/-- The widget of the C2 counterexample: a non-empty candidate list and
a value that will produce zero fuzzy matches. -/
def exampleC2Widget : InputTextWidget :=
  { label := "t", value := "zzz", candidates := ["abc"] }

/-- Claim C2 counterexample: a value-change event (isChanged = true)
against the non-empty candidate list ["abc"] whose fuzzy search returns
zero matches leaves the previously stored matches ["old"] in place — the
store comes back unchanged and the overlay is still rendered
(TextWidgets.go lines 230-236 only overwrite the state when the new
match list is non-empty) — refuting the claim that the stored matches
are cleared and no overlay is rendered. -/
theorem C2_counterexample :
    ((fun _ _ => ([] : List FuzzyMatch)) exampleC2Widget.value
        exampleC2Widget.candidates).length = 0 ∧
    exampleC2Widget.candidates.length > 0 ∧
    getState exampleC2Store exampleC2Widget.label =
      some (StoredState.inputText ⟨[⟨"old"⟩]⟩) ∧
    InputTextWidget.Build (fun _ _ => []) true false exampleC2Store
        exampleC2Widget =
      some (exampleC2Store, "zzz", true) :=
  ⟨rfl, by decide, rfl, rfl⟩

/-- Claim C2 (amended): a value-change event whose fuzzy search against
a non-empty candidate list yields zero matches leaves the previously
stored matches unchanged in the widget's per-identifier state, and the
overlay is rendered exactly when those retained matches are non-empty. -/
theorem C2_amended_zero_matches_keep_state
    (fuzzyFind : String → List String → List FuzzyMatch)
    (store : StateStore) (w : InputTextWidget) (st : inputTextState)
    (hprev : getState store w.label = some (StoredState.inputText st))
    (hcand : w.candidates.length > 0)
    (hzero : fuzzyFind w.value w.candidates = []) :
    InputTextWidget.Build fuzzyFind true false store w =
      some (setState store w.label (StoredState.inputText st), w.value,
            !st.autoCompleteCandidates.isEmpty) := by
  have hstep : inputTextChangeStep fuzzyFind w.value w.candidates true st = st := by
    unfold inputTextChangeStep
    simp [hcand, hzero]
  have hov : inputTextOverlayStep false w.value st =
      (st, w.value, !st.autoCompleteCandidates.isEmpty) := by
    unfold inputTextOverlayStep
    cases h : st.autoCompleteCandidates with
    | nil => simp [h]
    | cons m rest => simp [h]
  unfold InputTextWidget.Build inputTextRecoverState
  rw [hprev]
  simp [hstep, hov]

theorem C2_amended_zero_matches_keep_state_witness :
    getState exampleC2Store exampleC2Widget.label =
      some (StoredState.inputText exampleOldState) ∧
    exampleC2Widget.candidates.length > 0 ∧
    ((fun _ _ => ([] : List FuzzyMatch)) exampleC2Widget.value
        exampleC2Widget.candidates) = [] ∧
    InputTextWidget.Build (fun _ _ => []) true false exampleC2Store
        exampleC2Widget =
      some (setState exampleC2Store exampleC2Widget.label
              (StoredState.inputText exampleOldState),
            exampleC2Widget.value,
            !exampleOldState.autoCompleteCandidates.isEmpty) :=
  ⟨rfl, by decide, rfl,
   C2_amended_zero_matches_keep_state (fun _ _ => []) exampleC2Store
     exampleC2Widget exampleOldState rfl (by decide) rfl⟩

/-- Claim C8: pressing Enter while stored matches are present (after the
change-processing step) replaces the value with the first (top-ranked)
stored match and clears the stored matches; when no matches are stored
the key leaves the value and the state untouched and draws nothing. -/
theorem C8_enter_confirmation
    (fuzzyFind : String → List String → List FuzzyMatch)
    (isChanged : Bool) (store : StateStore) (w : InputTextWidget)
    (st0 : inputTextState) (store1 : StateStore)
    (hrec : inputTextRecoverState store w.label = some (st0, store1)) :
    (∀ m rest,
      (inputTextChangeStep fuzzyFind w.value w.candidates isChanged
          st0).autoCompleteCandidates = m :: rest →
      InputTextWidget.Build fuzzyFind isChanged true store w =
        some (setState store1 w.label (StoredState.inputText ⟨[]⟩),
              m.Str, true)) ∧
    ((inputTextChangeStep fuzzyFind w.value w.candidates isChanged
          st0).autoCompleteCandidates = [] →
      InputTextWidget.Build fuzzyFind isChanged true store w =
        some (setState store1 w.label (StoredState.inputText
                (inputTextChangeStep fuzzyFind w.value w.candidates isChanged
                  st0)),
              w.value, false)) := by
  constructor
  · intro m rest hm
    have hov : inputTextOverlayStep true w.value
        (inputTextChangeStep fuzzyFind w.value w.candidates isChanged st0) =
        (⟨[]⟩, m.Str, true) := by
      unfold inputTextOverlayStep
      rw [hm]
      simp
    unfold InputTextWidget.Build
    rw [hrec]
    simp [hov]
  · intro hm
    have hov : inputTextOverlayStep true w.value
        (inputTextChangeStep fuzzyFind w.value w.candidates isChanged st0) =
        (inputTextChangeStep fuzzyFind w.value w.candidates isChanged st0,
         w.value, false) := by
      unfold inputTextOverlayStep
      rw [hm]
    unfold InputTextWidget.Build
    rw [hrec]
    simp [hov]

/-- The widget of the C8 witness (spec §8's example input). -/
def exampleC8Widget : InputTextWidget :=
  { label := "t", value := "ab", candidates := ["abc", "xyz", "abd"] }

/-- A fuzzy matcher answering the C8 witness's query with two matches,
best first. -/
def exampleC8Fuzzy : String → List String → List FuzzyMatch :=
  fun _ _ => [⟨"abc"⟩, ⟨"abd"⟩]

theorem C8_enter_confirmation_witness :
    inputTextRecoverState [] exampleC8Widget.label =
      some (⟨[]⟩, [("t", StoredState.inputText ⟨[]⟩)]) ∧
    (inputTextChangeStep exampleC8Fuzzy exampleC8Widget.value
        exampleC8Widget.candidates true ⟨[]⟩).autoCompleteCandidates =
      FuzzyMatch.mk "abc" :: [FuzzyMatch.mk "abd"] ∧
    InputTextWidget.Build exampleC8Fuzzy true true [] exampleC8Widget =
      some (setState [("t", StoredState.inputText ⟨[]⟩)]
              exampleC8Widget.label (StoredState.inputText ⟨[]⟩),
            (FuzzyMatch.mk "abc").Str, true) :=
  ⟨rfl, rfl,
   (C8_enter_confirmation exampleC8Fuzzy true [] exampleC8Widget ⟨[]⟩
      [("t", StoredState.inputText ⟨[]⟩)] rfl).1 ⟨"abc"⟩ [⟨"abd"⟩] rfl⟩

/-- Claim C9: recovering a State Store entry of the wrong concrete type
is fatal (the build aborts, never coerces); an absent entry instead
creates a fresh empty state, stores it, and the build proceeds. -/
theorem C9_state_recovery
    (fuzzyFind : String → List String → List FuzzyMatch)
    (isChanged enterPressed : Bool) (store : StateStore)
    (w : InputTextWidget) :
    ((∃ tag, getState store w.label = some (StoredState.otherKind tag)) →
      InputTextWidget.Build fuzzyFind isChanged enterPressed store w = none) ∧
    (getState store w.label = none →
      inputTextRecoverState store w.label =
        some (⟨[]⟩, setState store w.label (StoredState.inputText ⟨[]⟩)) ∧
      InputTextWidget.Build fuzzyFind isChanged enterPressed store w ≠
        none) := by
  constructor
  · rintro ⟨tag, htag⟩
    unfold InputTextWidget.Build inputTextRecoverState
    rw [htag]
  · intro habs
    have hrec : inputTextRecoverState store w.label =
        some (⟨[]⟩, setState store w.label (StoredState.inputText ⟨[]⟩)) := by
      unfold inputTextRecoverState
      rw [habs]
    refine ⟨hrec, ?_⟩
    unfold InputTextWidget.Build
    rw [hrec]
    simp

theorem C9_state_recovery_witness :
    (∃ tag, getState [("t", StoredState.otherKind 0)] "t" =
      some (StoredState.otherKind tag)) ∧
    InputTextWidget.Build (fun _ _ => []) false false
      [("t", StoredState.otherKind 0)]
      { label := "t", value := "", candidates := [] } = none ∧
    getState [] "t" = none ∧
    inputTextRecoverState [] "t" =
      some (⟨[]⟩, setState [] "t" (StoredState.inputText ⟨[]⟩)) ∧
    InputTextWidget.Build (fun _ _ => []) false false []
      { label := "t", value := "", candidates := [] } ≠ none := by
  have h1 := (C9_state_recovery (fun _ _ => []) false false
    [("t", StoredState.otherKind 0)]
    { label := "t", value := "", candidates := [] }).1 ⟨0, rfl⟩
  have h2 := (C9_state_recovery (fun _ _ => []) false false []
    { label := "t", value := "", candidates := [] }).2 rfl
  exact ⟨⟨0, rfl⟩, h1, rfl, h2.1, h2.2⟩
